import Mathlib

/-!
Verification development for the WebVetaApp chat backend
(`src/backend/src/controllers/message.controller.js`, the socket hub in
`src/backend/src/lib/socket.js`, and the `Message` mongoose schema).

User identities, message identifiers and socket identifiers are opaque in the
source (Mongo ObjectIds / socket.io ids); they are modelled as `Nat`.
Timestamps (mongoose `Date` defaults) are modelled as a `Nat` supplied by the
caller.  JS strings are Lean `String`s; a JS field that can be `undefined` and
is only ever tested for falsiness is modelled as `""` when absent, matching the
controller's own use of `""` (e.g. `deleteMessage` clears media to `""`).
-/

namespace WebVeta

/-- Models `Char.toLower`-style ASCII lowercasing, the behaviour of JS
`String.prototype.toLowerCase` on the ASCII names the controllers compare. -/
def toLowerStr (s : String) : String :=
  ⟨s.data.map Char.toLower⟩

/-- Whitespace test used by the JS `String.prototype.trim` model. -/
def isWsChar (c : Char) : Bool :=
  c == ' ' || c == '\t' || c == '\n' || c == '\r'

/-- Models JS `String.prototype.trim`: strip leading and trailing whitespace. -/
def trimStr (s : String) : String :=
  ⟨((s.data.dropWhile isWsChar).reverse.dropWhile isWsChar).reverse⟩

/-- Does the character list `s` start with the character list `pat`? -/
def charsStart : List Char → List Char → Bool
  | _, [] => true
  | [], _ :: _ => false
  | c :: cs, p :: ps => c == p && charsStart cs ps

/-- Does the character list `s` contain `pat` as a contiguous run?  Models JS
`String.prototype.includes`. -/
def charsContain : List Char → List Char → Bool
  | [], pat => pat.isEmpty
  | c :: cs, pat => charsStart (c :: cs) pat || charsContain cs pat

/-- Models JS `s.includes(pat)`. -/
def containsSub (s pat : String) : Bool :=
  charsContain s.data pat.data

/-- The chatbot-name test shared by `getAllContacts` and `getChatPartners`:
`user.fullName.toLowerCase().includes("chatbot") ||
 user.fullName.toLowerCase().includes("chat bot")`. -/
def isChatbotName (name : String) : Bool :=
  containsSub (toLowerStr name) "chatbot" || containsSub (toLowerStr name) "chat bot"

/-- One entry of the `reactions` array of the `Message` schema. -/
structure Reaction where
  userId : Nat
  emoji : String
deriving DecidableEq, Repr

/-- One entry of the `readBy` array of the `Message` schema (`readAt`
defaults to the save time). -/
structure ReadEntry where
  userId : Nat
  readAt : Nat
deriving DecidableEq, Repr

/-- One entry of the `deliveredTo` array of the `Message` schema. -/
structure DeliveredEntry where
  userId : Nat
  deliveredAt : Nat
deriving DecidableEq, Repr

/-- The `Message` mongoose document (schema in the models file).  Media fields
use `""` for absent, mirroring the falsy checks and the clearing done by
`deleteMessage`. -/
structure Message where
  id : Nat
  senderId : Nat
  receiverId : Nat
  text : String
  image : String
  video : String
  audio : String
  replyTo : Option Nat
  edited : Bool
  editedAt : Option Nat
  deletedForMe : List Nat
  deletedForEveryone : Bool
  reactions : List Reaction
  readBy : List ReadEntry
  deliveredTo : List DeliveredEntry
deriving DecidableEq, Repr

/-- A user document, restricted to the fields the claims touch. -/
structure User where
  id : Nat
  fullName : String
deriving DecidableEq, Repr

/-- HTTP error responses of the controllers, tagged by status code. -/
inductive ApiError where
  | badRequest (msg : String)
  | forbidden (msg : String)
  | notFound (msg : String)
deriving DecidableEq, Repr

/-! ## Presence registry (`src/backend/src/lib/socket.js`)

`userSocketMap` is a JS object `{userId: socketId}`; modelled as an
association list looked up by `find?`. -/

/-- The `userSocketMap` object. -/
abbrev SocketMap := List (Nat × Nat)

/-- `getReceiverSocketId(userId)`: `userSocketMap[userIdStr]`. -/
def getReceiverSocketId (map : SocketMap) (userId : Nat) : Option Nat :=
  (map.find? (fun e => e.1 == userId)).map (fun e => e.2)

/-- The connection handler's `userSocketMap[userId] = socket.id`: object
assignment overwrites any previous entry for that key. -/
def registerConnection (map : SocketMap) (userId socketId : Nat) : SocketMap :=
  (userId, socketId) :: map.filter (fun e => e.1 != userId)

/-- The `disconnect` handler: `delete userSocketMap[userId]`.  The handler
receives the disconnecting socket (here `_socketId`) but never consults its
id: the entry for `userId` is removed unconditionally. -/
def disconnectHandler (map : SocketMap) (userId : Nat) (_socketId : Nat) : SocketMap :=
  map.filter (fun e => e.1 != userId)

/-! ## Message controllers (`message.controller.js`)

Each controller is modelled as a pure function on the message record it
`findById`s (the not-found branch is the caller's concern), returning the
updated record together with the socket emissions it performs.  A receipt
payload is modelled as the key/value list of the emitted JS object literal. -/

/-- The key/value pairs of an emitted JS object literal whose values are ids. -/
abbrev Payload := List (String × Nat)

/-- Membership test `message.readBy.some((r) => r.userId.toString() === userId.toString())`. -/
def readByHas (m : Message) (userId : Nat) : Bool :=
  m.readBy.any (fun r => r.userId == userId)

/-- Membership test `msg.deliveredTo.some((d) => d.userId.toString() === myId.toString())`. -/
def deliveredToHas (m : Message) (userId : Nat) : Bool :=
  m.deliveredTo.any (fun d => d.userId == userId)

/-- Membership test `message.deletedForMe.some((d) => d.userId.toString() === userId.toString())`. -/
def deletedForMeHas (m : Message) (userId : Nat) : Bool :=
  m.deletedForMe.any (fun d => d == userId)

/-- `markMessageAsRead`: if the caller is not yet in `readBy`, push
`{userId}` (with `readAt` defaulting to `now`) and emit a `messageRead`
receipt `{messageId, userId}` to the sender's socket when the sender is
online.  Returns the updated message and the emissions `(socketId, payload)`. -/
def markMessageAsRead (map : SocketMap) (m : Message) (userId now : Nat) :
    Message × List (Nat × Payload) :=
  if readByHas m userId then
    (m, [])
  else
    match getReceiverSocketId map m.senderId with
    | some sid => ({ m with readBy := m.readBy ++ [⟨userId, now⟩] },
                   [(sid, [("messageId", m.id), ("userId", userId)])])
    | none => ({ m with readBy := m.readBy ++ [⟨userId, now⟩] }, [])

/-- The per-message delivery-marking step of `getMessagesByUserId`: a message
addressed to the fetching user and not yet delivered to them gets
`deliveredTo.push({userId: myId})` and a `messageDelivered` receipt
`{messageId, userId}` emitted to the sender's socket when the sender is
online. -/
def markDeliveredStep (map : SocketMap) (myId now : Nat) (m : Message) :
    Message × List (Nat × Payload) :=
  if m.receiverId == myId && !(deliveredToHas m myId) then
    match getReceiverSocketId map m.senderId with
    | some sid => ({ m with deliveredTo := m.deliveredTo ++ [⟨myId, now⟩] },
                   [(sid, [("messageId", m.id), ("userId", myId)])])
    | none => ({ m with deliveredTo := m.deliveredTo ++ [⟨myId, now⟩] }, [])
  else
    (m, [])

/-- The visibility filter of `getMessagesByUserId`: drop messages the fetching
user deleted for themselves (tombstoned `deletedForEveryone` messages are NOT
filtered out). -/
def visibleMessages (msgs : List Message) (myId : Nat) : List Message :=
  msgs.filter (fun m => !(deletedForMeHas m myId))

/-- The record constructed by the `new Message({...})` literal in
`sendMessage`: trimmed text, media URLs (or `""` when the corresponding file
was absent), and `deliveredTo: [{userId: senderId}]`. -/
def newMessageRecord (senderId receiverId : Nat) (text : String)
    (imageUrl videoUrl audioUrl : Option String) (replyTo : Option Nat)
    (newId now : Nat) : Message :=
  { id := newId, senderId := senderId, receiverId := receiverId
    text := trimStr text
    image := imageUrl.getD "", video := videoUrl.getD "", audio := audioUrl.getD ""
    replyTo := replyTo, edited := false, editedAt := none
    deletedForMe := [], deletedForEveryone := false
    reactions := [], readBy := []
    deliveredTo := [⟨senderId, now⟩] }

/-- `sendMessage`: content/self-send/receiver-existence checks, then the new
record is built and the `newMessage` event is emitted to the receiver's
socket only, when the receiver is online.  Media uploads are external (Blob
Store); the already-uploaded URLs arrive as `Option String`.  Returns the
stored message and the list of target sockets of the `newMessage` emission. -/
def sendMessage (map : SocketMap) (receiverExists : Bool) (senderId receiverId : Nat)
    (text : String) (imageUrl videoUrl audioUrl : Option String)
    (replyTo : Option Nat) (newId now : Nat) :
    Except ApiError (Message × List Nat) :=
  if trimStr text == "" && imageUrl.isNone && videoUrl.isNone && audioUrl.isNone then
    .error (.badRequest "Text, image, video, or audio is required.")
  else if senderId == receiverId then
    .error (.badRequest "Cannot send messages to yourself.")
  else if !receiverExists then
    .error (.notFound "Receiver not found.")
  else
    match getReceiverSocketId map receiverId with
    | some sid =>
        .ok (newMessageRecord senderId receiverId text imageUrl videoUrl audioUrl replyTo newId now,
             [sid])
    | none =>
        .ok (newMessageRecord senderId receiverId text imageUrl videoUrl audioUrl replyTo newId now,
             [])

/-- `addReaction`: requires a (truthy) emoji, then removes any existing
reaction from this user and pushes `{userId, emoji}`.  No
`deletedForEveryone` check is performed. -/
def addReaction (m : Message) (userId : Nat) (emoji : String) :
    Except ApiError Message :=
  if emoji == "" then
    .error (.badRequest "Emoji is required")
  else
    .ok { m with reactions :=
            m.reactions.filter (fun r => r.userId != userId) ++ [⟨userId, emoji⟩] }

/-- `removeReaction`: drop every reaction of this user. -/
def removeReaction (m : Message) (userId : Nat) : Message :=
  { m with reactions := m.reactions.filter (fun r => r.userId != userId) }

/-- `editMessage`: requires non-blank text, sender-only, and rejects a
`deletedForEveryone` tombstone; otherwise stores the trimmed text and sets
`edited` / `editedAt`. -/
def editMessage (m : Message) (userId : Nat) (text : String) (now : Nat) :
    Except ApiError Message :=
  if trimStr text == "" then
    .error (.badRequest "Message text is required")
  else if m.senderId != userId then
    .error (.forbidden "You can only edit your own messages")
  else if m.deletedForEveryone then
    .error (.badRequest "Cannot edit a deleted message")
  else
    .ok { m with text := trimStr text, edited := true, editedAt := some now }

/-- `deleteMessage`: with `deleteForEveryone` true it is sender-only and turns
the record into a tombstone (flag set, `text`/`image`/`video`/`audio` cleared
to `""`); otherwise it appends the caller to `deletedForMe` if absent. -/
def deleteMessage (m : Message) (userId : Nat) (deleteForEveryone : Bool) :
    Except ApiError Message :=
  if deleteForEveryone then
    if m.senderId != userId then
      .error (.forbidden "Only the sender can delete for everyone")
    else
      .ok { m with deletedForEveryone := true, text := "", image := "", video := "", audio := "" }
  else
    if deletedForMeHas m userId then
      .ok m
    else
      .ok { m with deletedForMe := m.deletedForMe ++ [userId] }

/-- `getAllContacts`: all users except the logged-in one, then the chatbot
name filter. -/
def getAllContacts (users : List User) (loggedInUserId : Nat) : List User :=
  (users.filter (fun u => u.id != loggedInUserId)).filter
    (fun u => !(isChatbotName u.fullName))

/-- The distinct chat-partner ids computed by `getChatPartners` from the
messages in which the logged-in user participates. -/
def chatPartnerIds (msgs : List Message) (me : Nat) : List Nat :=
  ((msgs.filter (fun m => m.senderId == me || m.receiverId == me)).map
    (fun m => if m.senderId == me then m.receiverId else m.senderId)).dedup

/-- `getChatPartners`: users whose id appears among the partner ids, then the
chatbot name filter. -/
def getChatPartners (msgs : List Message) (users : List User) (me : Nat) : List User :=
  (users.filter (fun u => (chatPartnerIds msgs me).contains u.id)).filter
    (fun u => !(isChatbotName u.fullName))

/-- A reaction-endpoint call: `addReaction` (set) or `removeReaction` (clear). -/
inductive ReactOp where
  | set (userId : Nat) (emoji : String)
  | clear (userId : Nat)

/-- Apply one reaction-endpoint call to a message; a rejected `addReaction`
leaves the record unchanged. -/
def applyReactOp (m : Message) (op : ReactOp) : Message :=
  match op with
  | .set u e =>
      match addReaction m u e with
      | .ok m2 => m2
      | .error _ => m
  | .clear u => removeReaction m u

/-- Number of reactions a given user holds on a message. -/
def reactionUserCount (m : Message) (u : Nat) : Nat :=
  m.reactions.countP (fun r => r.userId == u)

/-- Socket maps in which distinct users hold distinct socket ids (each
socket.io connection authenticates exactly one user). -/
def injectiveSockets (map : SocketMap) : Prop :=
  ∀ p ∈ map, ∀ q ∈ map, p.2 = q.2 → p.1 = q.1

deriving instance DecidableEq for Except

/-- Is the controller response an error? -/
def isErr {α : Type} : Except ApiError α → Bool
  | .error _ => true
  | .ok _ => false

/-- A plain stored message from user 1 to user 2, used as a concrete fixture. -/
def sampleMsg : Message :=
  { id := 5, senderId := 1, receiverId := 2, text := "hello"
    image := "", video := "", audio := ""
    replyTo := none, edited := false, editedAt := none
    deletedForMe := [], deletedForEveryone := false
    reactions := [], readBy := []
    deliveredTo := [⟨1, 0⟩] }

/-- The same message tombstoned by a delete-for-everyone. -/
def sampleTomb : Message :=
  { sampleMsg with deletedForEveryone := true, text := "" }

/-- A message exchanged between user 3 and the chatbot-named user 2. -/
def botMsg : Message :=
  { id := 9, senderId := 3, receiverId := 2, text := "hi bot"
    image := "", video := "", audio := ""
    replyTo := none, edited := false, editedAt := none
    deletedForMe := [], deletedForEveryone := false
    reactions := [], readBy := []
    deliveredTo := [⟨3, 0⟩] }

/-! ## Helper lemmas -/

/-- A successful lookup in the presence registry comes from an entry of the map. -/
theorem getReceiverSocketId_mem (map : SocketMap) (u s : Nat)
    (h : getReceiverSocketId map u = some s) : (u, s) ∈ map := by
  unfold getReceiverSocketId at h
  cases hf : map.find? (fun e => e.1 == u) with
  | none => rw [hf] at h; simp at h
  | some e =>
    obtain ⟨e1, e2⟩ := e
    rw [hf] at h
    simp only [Option.map_some', Option.some.injEq] at h
    have hp := List.find?_some hf
    have hm := List.mem_of_find?_eq_some hf
    have h1 : e1 = u := by simpa using hp
    subst h1
    subst h
    exact hm

/-- Deleting one user's entry from the registry does not disturb lookups of
other users. -/
theorem find?_filter_ne (u v : Nat) (hv : v ≠ u) (map : SocketMap) :
    (map.filter (fun e => e.1 != u)).find? (fun e => e.1 == v)
      = map.find? (fun e => e.1 == v) := by
  induction map with
  | nil => rfl
  | cons e rest ih =>
    by_cases heu : e.1 = u
    · have huv : (u == v) = false := by
        simp only [beq_eq_false_iff_ne, ne_eq]
        exact fun h => hv h.symm
      simp [List.filter_cons, heu, List.find?_cons, huv, ih]
    · have h1 : (e.1 != u) = true := by simp [heu]
      by_cases hev : e.1 = v
      · simp [List.filter_cons, h1, List.find?_cons, hev, hv]
      · have h2 : (e.1 == v) = false := by simp [hev]
        simp [List.filter_cons, h1, List.find?_cons, h2, ih]

/-! ## Claims -/

/-- C1 counterexample: on a message with `deletedForEveryone = true`,
`addReaction` is not rejected — it succeeds and changes the record, contrary
to the claim that every reaction operation on such a message errors and
leaves the record unchanged. -/
theorem addReaction_succeeds_on_tombstone :
    sampleTomb.deletedForEveryone = true ∧
    addReaction sampleTomb 7 "+1" = .ok { sampleTomb with reactions := [⟨7, "+1"⟩] } ∧
    ({ sampleTomb with reactions := [⟨7, "+1"⟩] } : Message) ≠ sampleTomb := by
  refine ⟨rfl, by decide, by decide⟩

/-- C1 (amended): once `deletedForEveryone` is true, every edit is rejected
with an error — specifically, when the blank-text and ownership checks pass,
with the "Cannot edit a deleted message" error (the spec's ConflictError) —
and the record is left unchanged (no updated record is produced); reaction
operations, however, are not guarded: `addReaction` with a truthy emoji
succeeds on the tombstone. -/
theorem edit_rejected_on_tombstone_reactions_not (m : Message) (u : Nat) (t : String)
    (now : Nat) (hdel : m.deletedForEveryone = true) :
    isErr (editMessage m u t now) = true ∧
    (trimStr t ≠ "" → m.senderId = u →
      editMessage m u t now = .error (.badRequest "Cannot edit a deleted message")) ∧
    (∀ emoji, emoji ≠ "" → isErr (addReaction m u emoji) = false) := by
  refine ⟨?_, ?_, ?_⟩
  · unfold editMessage
    by_cases h1 : trimStr t == ""
    · simp [h1, isErr]
    · by_cases h2 : m.senderId = u
      · simp [h1, h2, hdel, isErr]
      · simp [h1, h2, isErr]
  · intro ht hu
    unfold editMessage
    have h1 : ¬(trimStr t == "") = true := by simpa using ht
    simp [h1, hu, hdel]
  · intro emoji he
    unfold addReaction
    have h1 : ¬(emoji == "") = true := by simpa using he
    simp [h1, isErr]

/-- C1 witness: on the concrete tombstone, the sender's edit with text "new"
fails with the deleted-message error, and adding the reaction "+1" succeeds. -/
theorem edit_rejected_on_tombstone_reactions_not_witness :
    editMessage sampleTomb 1 "new" 7 = .error (.badRequest "Cannot edit a deleted message") ∧
    isErr (addReaction sampleTomb 1 "+1") = false :=
  ⟨(edit_rejected_on_tombstone_reactions_not sampleTomb 1 "new" 7 (by decide)).2.1
      (by decide) (by decide),
   (edit_rejected_on_tombstone_reactions_not sampleTomb 1 "new" 7 (by decide)).2.2
      "+1" (by decide)⟩

/-- C2 counterexample: user 1 connects with socket 10 and re-registers with
socket 20; the stale disconnect of socket 10 nevertheless evicts the newer
mapping (the lookup afterwards returns `none`, not `some 20` as the claim
requires). -/
theorem stale_disconnect_evicts_newer_connection :
    getReceiverSocketId (registerConnection (registerConnection [] 1 10) 1 20) 1 = some 20 ∧
    getReceiverSocketId
      (disconnectHandler (registerConnection (registerConnection [] 1 10) 1 20) 1 10) 1
        = none := by
  decide

/-- C2 (amended): the disconnect handler removes the disconnecting user's
presence mapping unconditionally — it never compares the stored socket id
with the disconnecting connection's id — while every other user's mapping is
left untouched. -/
theorem disconnect_removes_mapping_unconditionally (map : SocketMap) (u sid : Nat) :
    getReceiverSocketId (disconnectHandler map u sid) u = none ∧
    (∀ v, v ≠ u →
      getReceiverSocketId (disconnectHandler map u sid) v = getReceiverSocketId map v) := by
  constructor
  · unfold disconnectHandler getReceiverSocketId
    have : (map.filter (fun e => e.1 != u)).find? (fun e => e.1 == u) = none := by
      rw [List.find?_eq_none]
      intro x hx
      rw [List.mem_filter] at hx
      simpa using hx.2
    rw [this]
    rfl
  · intro v hv
    unfold disconnectHandler getReceiverSocketId
    rw [find?_filter_ne u v hv map]

/-- C2 witness: with users 1 and 2 registered, user 1 disconnecting removes
only user 1's mapping; user 2's lookup is unchanged. -/
theorem disconnect_removes_mapping_unconditionally_witness :
    getReceiverSocketId (disconnectHandler [(1, 10), (2, 20)] 1 10) 1 = none ∧
    getReceiverSocketId (disconnectHandler [(1, 10), (2, 20)] 1 10) 2
      = getReceiverSocketId [(1, 10), (2, 20)] 2 :=
  ⟨(disconnect_removes_mapping_unconditionally [(1, 10), (2, 20)] 1 10).1,
   (disconnect_removes_mapping_unconditionally [(1, 10), (2, 20)] 1 10).2 2 (by decide)⟩

/-- C3: on every successful `sendMessage`, the `newMessage` event targets
exactly the receiver's registered socket (empty when the receiver has no
presence entry); when sockets identify users uniquely it is never the
sender's own socket; and the stored message is the same for every presence
state — creation succeeds unchanged whether or not the receiver is online. -/
theorem newMessage_to_receiver_only
    (map : SocketMap) (rex : Bool) (sId rId : Nat) (t : String)
    (iu vu au : Option String) (rep : Option Nat) (nid now : Nat)
    (msg : Message) (emits : List Nat)
    (h : sendMessage map rex sId rId t iu vu au rep nid now = .ok (msg, emits)) :
    emits = (getReceiverSocketId map rId).toList ∧
    (getReceiverSocketId map rId = none → emits = []) ∧
    (injectiveSockets map → ∀ ss, getReceiverSocketId map sId = some ss → ss ∉ emits) ∧
    (∀ map2, sendMessage map2 rex sId rId t iu vu au rep nid now
        = .ok (msg, (getReceiverSocketId map2 rId).toList)) := by
  unfold sendMessage at h
  split at h
  · simp at h
  · split at h
    · simp at h
    · split at h
      · simp at h
      · rename_i hg1 hg2 hg3
        have hsr : sId ≠ rId := by simpa using hg2
        split at h
        · rename_i sid hm
          simp only [Except.ok.injEq, Prod.mk.injEq] at h
          obtain ⟨hmsg, hemits⟩ := h
          subst hmsg
          refine ⟨?_, ?_, ?_, ?_⟩
          · rw [hm, ← hemits]; rfl
          · intro hnone; rw [hnone] at hm; exact absurd hm (by simp)
          · intro hinj ss hss hmem
            rw [← hemits] at hmem
            simp only [List.mem_singleton] at hmem
            subst hmem
            have h1 := getReceiverSocketId_mem map sId ss hss
            have h2 := getReceiverSocketId_mem map rId ss hm
            exact hsr (hinj _ h1 _ h2 rfl)
          · intro map2
            unfold sendMessage
            rw [if_neg hg1, if_neg hg2, if_neg hg3]
            cases hm2 : getReceiverSocketId map2 rId with
            | some s2 => simp [Option.toList]
            | none => simp [Option.toList]
        · rename_i hm
          simp only [Except.ok.injEq, Prod.mk.injEq] at h
          obtain ⟨hmsg, hemits⟩ := h
          subst hmsg
          refine ⟨?_, ?_, ?_, ?_⟩
          · rw [hm, ← hemits]; rfl
          · intro _; exact hemits.symm
          · intro _ _ _ hmem
            rw [← hemits] at hmem
            simp at hmem
          · intro map2
            unfold sendMessage
            rw [if_neg hg1, if_neg hg2, if_neg hg3]
            cases hm2 : getReceiverSocketId map2 rId with
            | some s2 => simp [Option.toList]
            | none => simp [Option.toList]

/-- C3 witness: with receiver 2 on socket 7 and sender 1 on socket 9, the
concrete send emits exactly to socket 7, and the sender's socket 9 is not a
target. -/
theorem newMessage_to_receiver_only_witness :
    [7] = (getReceiverSocketId [(2, 7), (1, 9)] 2).toList ∧
    (9 : Nat) ∉ ([7] : List Nat) :=
  ⟨(newMessage_to_receiver_only [(2, 7), (1, 9)] true 1 2 "hi" none none none none 5 0
      (newMessageRecord 1 2 "hi" none none none none 5 0) [7] (by decide)).1,
   (newMessage_to_receiver_only [(2, 7), (1, 9)] true 1 2 "hi" none none none none 5 0
      (newMessageRecord 1 2 "hi" none none none none 5 0) [7] (by decide)).2.2.1
     (by unfold injectiveSockets; decide) 9 (by decide)⟩

/-- C4: a message returned by a successful `sendMessage` has `deliveredTo`
equal to the singleton sender entry (timestamped at creation), so the sender
is contained in `deliveredTo` before any real-time delivery or later
operation. -/
theorem created_message_delivered_to_sender
    (map : SocketMap) (rex : Bool) (sId rId : Nat) (t : String)
    (iu vu au : Option String) (rep : Option Nat) (nid now : Nat)
    (msg : Message) (emits : List Nat)
    (h : sendMessage map rex sId rId t iu vu au rep nid now = .ok (msg, emits)) :
    msg.deliveredTo = [⟨sId, now⟩] ∧ deliveredToHas msg sId = true := by
  unfold sendMessage at h
  split at h
  · simp at h
  · split at h
    · simp at h
    · split at h
      · simp at h
      · split at h
        · simp only [Except.ok.injEq, Prod.mk.injEq] at h
          obtain ⟨hm, _⟩ := h
          subst hm
          exact ⟨rfl, by simp [deliveredToHas, newMessageRecord]⟩
        · simp only [Except.ok.injEq, Prod.mk.injEq] at h
          obtain ⟨hm, _⟩ := h
          subst hm
          exact ⟨rfl, by simp [deliveredToHas, newMessageRecord]⟩

/-- C4 witness: the concrete send from user 1 to user 2 yields a message whose
deliveredTo is exactly the sender entry. -/
theorem created_message_delivered_to_sender_witness :
    (sampleMsg.deliveredTo = [⟨1, 0⟩]) ∧ deliveredToHas sampleMsg 1 = true :=
  created_message_delivered_to_sender [] true 1 2 "hello" none none none none 5 0
    sampleMsg [] (by decide)

/-- C8: `deleteMessage` with deleteForEveryone requested by a non-sender
fails with the forbidden error (no updated record is produced); requested by
the sender it returns the tombstone — `deletedForEveryone` set and `text`,
`image`, `video`, `audio` all cleared — and that tombstone is still returned
by the conversation fetch filter for any viewer who has not deleted the
message for themselves, showing exactly those cleared fields. -/
theorem deleteForEveryone_sender_only_clears_content (m : Message) (u v : Nat) :
    (m.senderId ≠ u →
      deleteMessage m u true = .error (.forbidden "Only the sender can delete for everyone")) ∧
    (deleteMessage m m.senderId true =
      .ok { m with deletedForEveryone := true, text := "", image := "", video := "", audio := "" }) ∧
    (deletedForMeHas m v = false →
      visibleMessages
        [{ m with deletedForEveryone := true, text := "", image := "", video := "", audio := "" }] v
        = [{ m with deletedForEveryone := true, text := "", image := "", video := "", audio := "" }]) := by
  refine ⟨?_, ?_, ?_⟩
  · intro hne
    unfold deleteMessage
    simp [hne]
  · unfold deleteMessage
    simp
  · intro hv
    unfold visibleMessages
    have h2 : (!(deletedForMeHas
        { m with deletedForEveryone := true, text := "", image := "", video := "", audio := "" } v))
          = true := by
      have h3 : deletedForMeHas
          { m with deletedForEveryone := true, text := "", image := "", video := "", audio := "" } v
            = false := hv
      simp [h3]
    simp [List.filter_cons, h2]

/-- C8 witness: on the concrete message, user 2 (not the sender) is refused,
the sender's delete yields the cleared tombstone, and viewer 2 still fetches
it. -/
theorem deleteForEveryone_sender_only_clears_content_witness :
    (deleteMessage sampleMsg 2 true
      = .error (.forbidden "Only the sender can delete for everyone")) ∧
    (deleteMessage sampleMsg 1 true =
      .ok { sampleMsg with deletedForEveryone := true, text := "", image := "", video := "", audio := "" }) ∧
    (visibleMessages
        [{ sampleMsg with deletedForEveryone := true, text := "", image := "", video := "", audio := "" }] 2
      = [{ sampleMsg with deletedForEveryone := true, text := "", image := "", video := "", audio := "" }]) :=
  ⟨(deleteForEveryone_sender_only_clears_content sampleMsg 2 2).1 (by decide),
   (deleteForEveryone_sender_only_clears_content sampleMsg 2 2).2.1,
   (deleteForEveryone_sender_only_clears_content sampleMsg 2 2).2.2 (by decide)⟩

/-- After removing every reaction of user `u`, user `u` holds none. -/
theorem countP_filter_self (l : List Reaction) (u : Nat) :
    (l.filter (fun r => r.userId != u)).countP (fun r => r.userId == u) = 0 := by
  rw [List.countP_eq_zero]
  intro a ha
  rw [List.mem_filter] at ha
  have h2 := ha.2
  simp only [bne_iff_ne, ne_eq] at h2
  simp [h2]

/-- Removing user `u`'s reactions does not change any other user's count. -/
theorem countP_filter_other (l : List Reaction) (u w : Nat) (hw : w ≠ u) :
    (l.filter (fun r => r.userId != u)).countP (fun r => r.userId == w)
      = l.countP (fun r => r.userId == w) := by
  induction l with
  | nil => rfl
  | cons a l ih =>
    by_cases hau : a.userId = u
    · have h1 : (a.userId != u) = false := by simp [hau]
      have h2 : (a.userId == w) = false := by
        simp only [beq_eq_false_iff_ne, ne_eq, hau]
        exact fun h => hw h.symm
      simp [List.filter_cons, h1, List.countP_cons, h2, ih]
    · have h1 : (a.userId != u) = true := by simp [hau]
      simp [List.filter_cons, h1, List.countP_cons, ih]

/-- One reaction-endpoint call keeps every user's reaction count at most 1. -/
theorem reactionUserCount_applyReactOp (m : Message) (op : ReactOp) (w : Nat)
    (hw : reactionUserCount m w ≤ 1) :
    reactionUserCount (applyReactOp m op) w ≤ 1 := by
  cases op with
  | set u e =>
    by_cases he : (e == "") = true
    · have ha : addReaction m u e = Except.error (ApiError.badRequest "Emoji is required") := by
        unfold addReaction
        rw [if_pos he]
      have h0 : applyReactOp m (ReactOp.set u e) = m := by
        show (match addReaction m u e with | Except.ok m2 => m2 | Except.error _ => m) = m
        rw [ha]
      rw [h0]
      exact hw
    · have ha : addReaction m u e = Except.ok
          { m with reactions := m.reactions.filter (fun r => r.userId != u) ++ [⟨u, e⟩] } := by
        unfold addReaction
        rw [if_neg he]
      have h0 : applyReactOp m (ReactOp.set u e) =
          { m with reactions := m.reactions.filter (fun r => r.userId != u) ++ [⟨u, e⟩] } := by
        show (match addReaction m u e with | Except.ok m2 => m2 | Except.error _ => m) = _
        rw [ha]
      rw [h0]
      unfold reactionUserCount
      show (m.reactions.filter (fun r => r.userId != u)
          ++ ([⟨u, e⟩] : List Reaction)).countP (fun r => r.userId == w) ≤ 1
      rw [List.countP_append]
      by_cases hwu : w = u
      · subst hwu
        rw [countP_filter_self]
        simp [List.countP_cons]
      · rw [countP_filter_other _ _ _ hwu]
        have h2 : ((⟨u, e⟩ : Reaction).userId == w) = false := by
          simp only [beq_eq_false_iff_ne, ne_eq]
          exact fun h => hwu h.symm
        simpa [List.countP_cons, h2] using hw
  | clear u =>
    have h0 : applyReactOp m (ReactOp.clear u) = removeReaction m u := rfl
    rw [h0]
    unfold removeReaction reactionUserCount
    show (m.reactions.filter (fun r => r.userId != u)).countP (fun r => r.userId == w) ≤ 1
    by_cases hwu : w = u
    · subst hwu
      rw [countP_filter_self]
      simp
    · rw [countP_filter_other _ _ _ hwu]
      exact hw

/-- C5: starting from a message in which user `w` holds at most one reaction
(any freshly created message has none), any sequence of reaction-endpoint
calls leaves `w` with at most one reaction; moreover a successful
`addReaction` leaves the calling user with exactly the new entry — the
existing reaction is replaced, never joined by a second. -/
theorem reactions_at_most_one_per_user (m : Message) (ops : List ReactOp) (w : Nat)
    (hw : reactionUserCount m w ≤ 1) :
    reactionUserCount (ops.foldl applyReactOp m) w ≤ 1 ∧
    (∀ u e m2, addReaction m u e = Except.ok m2 →
      m2.reactions.filter (fun r => r.userId == u) = [⟨u, e⟩]) := by
  constructor
  · induction ops generalizing m with
    | nil => exact hw
    | cons op ops ih =>
      exact ih _ (reactionUserCount_applyReactOp m op w hw)
  · intro u e m2 h
    unfold addReaction at h
    by_cases he : (e == "") = true
    · rw [if_pos he] at h
      simp at h
    · rw [if_neg he] at h
      simp only [Except.ok.injEq] at h
      subst h
      show (m.reactions.filter (fun r => r.userId != u)
          ++ ([⟨u, e⟩] : List Reaction)).filter (fun r => r.userId == u) = [⟨u, e⟩]
      rw [List.filter_append, List.filter_filter]
      have hnil : m.reactions.filter
          (fun r => (r.userId == u) && (r.userId != u)) = [] := by
        rw [List.filter_eq_nil_iff]
        intro a _
        by_cases hau : a.userId = u <;> simp [hau]
      rw [hnil]
      simp [List.filter_cons]

/-- C5 witness: on the concrete message, setting "x" then "y" for user 3 and
clearing user 4 leaves user 3 with at most one reaction, and the successful
`addReaction` of "x" leaves user 3 with exactly that entry. -/
theorem reactions_at_most_one_per_user_witness :
    reactionUserCount
      ([ReactOp.set 3 "x", ReactOp.set 3 "y", ReactOp.clear 4].foldl applyReactOp sampleMsg) 3
        ≤ 1 ∧
    ({ sampleMsg with reactions := [⟨3, "x"⟩] } : Message).reactions.filter
        (fun r => r.userId == 3) = [⟨3, "x"⟩] :=
  ⟨(reactions_at_most_one_per_user sampleMsg [ReactOp.set 3 "x", ReactOp.set 3 "y", ReactOp.clear 4]
      3 (by decide)).1,
   (reactions_at_most_one_per_user sampleMsg [ReactOp.set 3 "x", ReactOp.set 3 "y", ReactOp.clear 4]
      3 (by decide)).2 3 "x" { sampleMsg with reactions := [⟨3, "x"⟩] } (by decide)⟩

/-- The message component of `markMessageAsRead`, independent of presence. -/
theorem markMessageAsRead_fst (map : SocketMap) (m : Message) (u now : Nat) :
    (markMessageAsRead map m u now).1 =
      if readByHas m u then m else { m with readBy := m.readBy ++ [⟨u, now⟩] } := by
  unfold markMessageAsRead
  by_cases hr : readByHas m u = true
  · rw [if_pos hr, if_pos hr]
  · rw [if_neg hr, if_neg hr]
    cases hm : getReceiverSocketId map m.senderId with
    | some sid => rfl
    | none => rfl

/-- The message component of `markDeliveredStep`, independent of presence. -/
theorem markDeliveredStep_fst (map : SocketMap) (u now : Nat) (m : Message) :
    (markDeliveredStep map u now m).1 =
      if m.receiverId == u && !(deliveredToHas m u) then
        { m with deliveredTo := m.deliveredTo ++ [⟨u, now⟩] }
      else m := by
  unfold markDeliveredStep
  by_cases hc : (m.receiverId == u && !(deliveredToHas m u)) = true
  · rw [if_pos hc, if_pos hc]
    cases hm : getReceiverSocketId map m.senderId with
    | some sid => rfl
    | none => rfl
  · rw [if_neg hc, if_neg hc]

/-- Pushing a `readBy` entry for `u` makes the membership test for `u` true. -/
theorem readByHas_append (m : Message) (u now : Nat) :
    readByHas { m with readBy := m.readBy ++ [⟨u, now⟩] } u = true := by
  simp [readByHas, List.any_append]

/-- Pushing a `deliveredTo` entry for `u` makes the membership test true. -/
theorem deliveredToHas_append (m : Message) (u now : Nat) :
    deliveredToHas { m with deliveredTo := m.deliveredTo ++ [⟨u, now⟩] } u = true := by
  simp [deliveredToHas, List.any_append]

/-- A user failing the `readBy` membership test is not among its user ids. -/
theorem not_mem_readBy_users (m : Message) (u : Nat) (h : readByHas m u = false) :
    u ∉ m.readBy.map ReadEntry.userId := by
  intro hmem
  rw [List.mem_map] at hmem
  obtain ⟨r, hr, hru⟩ := hmem
  have ht : m.readBy.any (fun r => r.userId == u) = true :=
    List.any_eq_true.mpr ⟨r, hr, by simp [hru]⟩
  unfold readByHas at h
  rw [ht] at h
  simp at h

/-- A user failing the `deliveredTo` membership test is not among its user ids. -/
theorem not_mem_deliveredTo_users (m : Message) (u : Nat) (h : deliveredToHas m u = false) :
    u ∉ m.deliveredTo.map DeliveredEntry.userId := by
  intro hmem
  rw [List.mem_map] at hmem
  obtain ⟨r, hr, hru⟩ := hmem
  have ht : m.deliveredTo.any (fun r => r.userId == u) = true :=
    List.any_eq_true.mpr ⟨r, hr, by simp [hru]⟩
  unfold deliveredToHas at h
  rw [ht] at h
  simp at h

/-- Appending a fresh user entry preserves distinctness of a user-id list. -/
theorem nodup_append_fresh {α : Type} [DecidableEq α] (l : List α) (a : α)
    (hn : l.Nodup) (ha : a ∉ l) : (l ++ [a]).Nodup := by
  rw [List.nodup_append_comm]
  show (a :: l).Nodup
  rw [List.nodup_cons]
  exact ⟨ha, hn⟩

/-- C6: `markMessageAsRead` and the delivered-marking step of the conversation
fetch are idempotent — marking a user already present in `readBy` or
`deliveredTo` is a no-op with no emission, and re-marking after a successful
mark changes nothing — the sets only ever grow by appending the single new
entry, and distinctness of the user entries is preserved (no duplicates). -/
theorem markRead_markDelivered_idempotent (map : SocketMap) (m : Message)
    (u now now2 : Nat) :
    (readByHas m u = true → markMessageAsRead map m u now = (m, [])) ∧
    ((markMessageAsRead map (markMessageAsRead map m u now).1 u now2).1
        = (markMessageAsRead map m u now).1) ∧
    ((markMessageAsRead map m u now).1.readBy = m.readBy ∨
      (markMessageAsRead map m u now).1.readBy = m.readBy ++ [⟨u, now⟩]) ∧
    ((m.readBy.map ReadEntry.userId).Nodup →
      ((markMessageAsRead map m u now).1.readBy.map ReadEntry.userId).Nodup) ∧
    (deliveredToHas m u = true → markDeliveredStep map u now m = (m, [])) ∧
    ((markDeliveredStep map u now2 (markDeliveredStep map u now m).1).1
        = (markDeliveredStep map u now m).1) ∧
    ((markDeliveredStep map u now m).1.deliveredTo = m.deliveredTo ∨
      (markDeliveredStep map u now m).1.deliveredTo = m.deliveredTo ++ [⟨u, now⟩]) ∧
    ((m.deliveredTo.map DeliveredEntry.userId).Nodup →
      ((markDeliveredStep map u now m).1.deliveredTo.map DeliveredEntry.userId).Nodup) := by
  refine ⟨?_, ?_, ?_, ?_, ?_, ?_, ?_, ?_⟩
  · intro hr
    unfold markMessageAsRead
    rw [if_pos hr]
  · rw [markMessageAsRead_fst, markMessageAsRead_fst]
    by_cases hr : readByHas m u = true
    · simp [hr]
    · have hr0 : readByHas m u = false := by
        cases hb : readByHas m u
        · rfl
        · exact absurd hb hr
      simp [hr0, readByHas_append]
  · rw [markMessageAsRead_fst]
    by_cases hr : readByHas m u = true
    · left; simp [hr]
    · right; simp [hr]
  · intro hn
    rw [markMessageAsRead_fst]
    by_cases hr : readByHas m u = true
    · simpa [hr] using hn
    · have hr0 : readByHas m u = false := by
        cases hb : readByHas m u
        · rfl
        · exact absurd hb hr
      have hfresh := not_mem_readBy_users m u hr0
      rw [if_neg (by simp [hr0])]
      simp only [List.map_append, List.map_cons, List.map_nil]
      exact nodup_append_fresh _ _ hn hfresh
  · intro hd
    unfold markDeliveredStep
    have hc : ¬((m.receiverId == u && !(deliveredToHas m u)) = true) := by simp [hd]
    rw [if_neg hc]
  · rw [markDeliveredStep_fst, markDeliveredStep_fst]
    by_cases hc : (m.receiverId == u && !(deliveredToHas m u)) = true
    · simp [hc, deliveredToHas_append]
    · simp [hc]
  · rw [markDeliveredStep_fst]
    by_cases hc : (m.receiverId == u && !(deliveredToHas m u)) = true
    · right; simp [hc]
    · left; simp [hc]
  · intro hn
    rw [markDeliveredStep_fst]
    by_cases hc : (m.receiverId == u && !(deliveredToHas m u)) = true
    · have hc2 := hc
      rw [Bool.and_eq_true] at hc2
      have hd0 : deliveredToHas m u = false := by
        have h2 := hc2.2
        cases hb : deliveredToHas m u
        · rfl
        · rw [hb] at h2; simp at h2
      have hfresh := not_mem_deliveredTo_users m u hd0
      rw [if_pos hc]
      simp only [List.map_append, List.map_cons, List.map_nil]
      exact nodup_append_fresh _ _ hn hfresh
    · simpa [hc] using hn

/-- C6 witness: concrete checks — re-reading after reading is a no-op and the
readBy user list stays duplicate-free. -/
theorem markRead_markDelivered_idempotent_witness :
    (markMessageAsRead [] (markMessageAsRead [] sampleMsg 2 10).1 2 11).1
        = (markMessageAsRead [] sampleMsg 2 10).1 ∧
    ((sampleMsg.readBy.map ReadEntry.userId).Nodup →
      ((markMessageAsRead [] sampleMsg 2 10).1.readBy.map ReadEntry.userId).Nodup) :=
  ⟨(markRead_markDelivered_idempotent [] sampleMsg 2 10 11).2.1,
   (markRead_markDelivered_idempotent [] sampleMsg 2 10 11).2.2.2.1⟩

/-- C7 counterexample: the concrete read receipt emitted to the sender's
socket carries exactly the keys `messageId` and `userId` — there is no
`timestamp` field in the payload, contrary to the claim. -/
theorem receipt_payload_has_no_timestamp :
    (markMessageAsRead [(1, 50)] sampleMsg 2 99).2
      = [(50, [("messageId", 5), ("userId", 2)])] ∧
    "timestamp" ∉ ([("messageId", 5), ("userId", 2)] : Payload).map Prod.fst := by
  exact ⟨by decide, by decide⟩

/-- C7 (amended): every delivered receipt and every read receipt is emitted
only to the message sender's registered socket, and its payload carries
exactly `{messageId, userId}` (no timestamp); when the sender is offline, or
the mark is a no-op, nothing is emitted. -/
theorem receipts_only_to_sender (map : SocketMap) (m : Message) (u now sid : Nat) :
    (readByHas m u = false → getReceiverSocketId map m.senderId = some sid →
      (markMessageAsRead map m u now).2 = [(sid, [("messageId", m.id), ("userId", u)])]) ∧
    (getReceiverSocketId map m.senderId = none → (markMessageAsRead map m u now).2 = []) ∧
    (readByHas m u = true → (markMessageAsRead map m u now).2 = []) ∧
    (m.receiverId = u → deliveredToHas m u = false →
      getReceiverSocketId map m.senderId = some sid →
      (markDeliveredStep map u now m).2 = [(sid, [("messageId", m.id), ("userId", u)])]) ∧
    (getReceiverSocketId map m.senderId = none → (markDeliveredStep map u now m).2 = []) ∧
    ((m.receiverId == u && !(deliveredToHas m u)) = false →
      (markDeliveredStep map u now m).2 = []) := by
  refine ⟨?_, ?_, ?_, ?_, ?_, ?_⟩
  · intro hr hs
    unfold markMessageAsRead
    rw [if_neg (by simp [hr]), hs]
  · intro hs
    unfold markMessageAsRead
    by_cases hr : readByHas m u = true
    · rw [if_pos hr]
    · rw [if_neg hr, hs]
  · intro hr
    unfold markMessageAsRead
    rw [if_pos hr]
  · intro hrecv hd hs
    unfold markDeliveredStep
    rw [if_pos (by simp [hrecv, hd]), hs]
  · intro hs
    unfold markDeliveredStep
    by_cases hc : (m.receiverId == u && !(deliveredToHas m u)) = true
    · rw [if_pos hc, hs]
    · rw [if_neg hc]
  · intro hc
    unfold markDeliveredStep
    rw [if_neg (by simp [hc])]

/-- C7 witness: with sender 1 online on socket 50, the concrete read receipt
for user 2 goes to socket 50 with payload exactly `{messageId, userId}`. -/
theorem receipts_only_to_sender_witness :
    (markMessageAsRead [(1, 50)] sampleMsg 2 99).2
      = [(50, [("messageId", sampleMsg.id), ("userId", 2)])] ∧
    (markDeliveredStep [] 2 99 sampleMsg).2 = [] :=
  ⟨(receipts_only_to_sender [(1, 50)] sampleMsg 2 99 50).1 (by decide) (by decide),
   (receipts_only_to_sender [] sampleMsg 2 99 50).2.2.2.2.1 (by decide)⟩

/-- C9: `markMessageAsRead` performs no participant check — for every
existing message and every user `u` whatsoever (including the sender and
users unrelated to the message), the operation succeeds: it appends `u` to
`readBy` when absent and emits the read receipt to the sender's socket when
the sender is online, and is a silent no-op when `u` is already present. -/
theorem markRead_no_participant_check (map : SocketMap) (m : Message) (u now : Nat) :
    (readByHas m u = false →
      (markMessageAsRead map m u now).1.readBy = m.readBy ++ [⟨u, now⟩] ∧
      (∀ sid, getReceiverSocketId map m.senderId = some sid →
        (markMessageAsRead map m u now).2 = [(sid, [("messageId", m.id), ("userId", u)])])) ∧
    (readByHas m u = true → markMessageAsRead map m u now = (m, [])) := by
  constructor
  · intro hr
    constructor
    · rw [markMessageAsRead_fst]
      simp [hr]
    · intro sid hs
      unfold markMessageAsRead
      rw [if_neg (by simp [hr]), hs]
  · intro hr
    unfold markMessageAsRead
    rw [if_pos hr]

/-- C9 witness: user 9, who is neither the sender (1) nor the receiver (2) of
the concrete message, successfully marks it read: they are appended to
`readBy` and the receipt is emitted to the sender's socket. -/
theorem markRead_no_participant_check_witness :
    (markMessageAsRead [(1, 50)] sampleMsg 9 77).1.readBy
        = sampleMsg.readBy ++ [⟨9, 77⟩] ∧
    (markMessageAsRead [(1, 50)] sampleMsg 9 77).2
        = [(50, [("messageId", sampleMsg.id), ("userId", 9)])] :=
  ⟨((markRead_no_participant_check [(1, 50)] sampleMsg 9 77).1 (by decide)).1,
   ((markRead_no_participant_check [(1, 50)] sampleMsg 9 77).1 (by decide)).2 50 (by decide)⟩

/-- C10: users whose `fullName` contains "chatbot" or "chat bot"
(case-insensitively) are excluded from both the contacts listing and the
chat-partners listing — even when they exist and have exchanged messages with
the caller — while every other user is returned exactly according to each
listing's own criterion (contacts: every user other than the caller; chat
partners: every user sharing a message with the caller). -/
theorem chatbot_never_listed (users : List User) (msgs : List Message) (me : Nat) (u : User) :
    (isChatbotName u.fullName = true →
      u ∉ getAllContacts users me ∧ u ∉ getChatPartners msgs users me) ∧
    (isChatbotName u.fullName = false →
      ((u ∈ getAllContacts users me ↔ u ∈ users ∧ u.id ≠ me) ∧
       (u ∈ getChatPartners msgs users me ↔ u ∈ users ∧ u.id ∈ chatPartnerIds msgs me))) := by
  constructor
  · intro hbot
    constructor
    · intro hmem
      unfold getAllContacts at hmem
      rw [List.mem_filter] at hmem
      have h2 := hmem.2
      rw [hbot] at h2
      simp at h2
    · intro hmem
      unfold getChatPartners at hmem
      rw [List.mem_filter] at hmem
      have h2 := hmem.2
      rw [hbot] at h2
      simp at h2
  · intro hbot
    constructor
    · unfold getAllContacts
      rw [List.mem_filter, List.mem_filter]
      constructor
      · rintro ⟨⟨hu, hid⟩, _⟩
        exact ⟨hu, by simpa using hid⟩
      · rintro ⟨hu, hid⟩
        exact ⟨⟨hu, by simpa using hid⟩, by simp [hbot]⟩
    · unfold getChatPartners
      rw [List.mem_filter, List.mem_filter]
      constructor
      · rintro ⟨⟨hu, hid⟩, _⟩
        exact ⟨hu, List.elem_iff.mp hid⟩
      · rintro ⟨hu, hid⟩
        exact ⟨⟨hu, List.elem_iff.mpr hid⟩, by simp [hbot]⟩

/-- C10 witness: the user named "ChatBot Helper" (id 2) has exchanged a
message with caller 3 — id 2 is among the computed chat-partner ids — yet
appears in neither listing, while "Alice" (id 1) is listed among contacts. -/
theorem chatbot_never_listed_witness :
    ((⟨2, "ChatBot Helper"⟩ : User)
        ∉ getAllContacts [⟨1, "Alice"⟩, ⟨2, "ChatBot Helper"⟩] 3 ∧
      (⟨2, "ChatBot Helper"⟩ : User)
        ∉ getChatPartners [botMsg] [⟨1, "Alice"⟩, ⟨2, "ChatBot Helper"⟩] 3) ∧
    (2 : Nat) ∈ chatPartnerIds [botMsg] 3 ∧
    (⟨1, "Alice"⟩ : User) ∈ getAllContacts [⟨1, "Alice"⟩, ⟨2, "ChatBot Helper"⟩] 3 :=
  ⟨(chatbot_never_listed [⟨1, "Alice"⟩, ⟨2, "ChatBot Helper"⟩] [botMsg] 3
      ⟨2, "ChatBot Helper"⟩).1 (by decide),
   by decide,
   ((chatbot_never_listed [⟨1, "Alice"⟩, ⟨2, "ChatBot Helper"⟩] [botMsg] 3
      ⟨1, "Alice"⟩).2 (by decide)).1.mpr ⟨by decide, by decide⟩⟩

end WebVeta
